import Mathlib

/-!
Verification development for the route-guide gRPC service.

The data model and the method dispatcher are shallow embeddings of
`src/data/route_guide.rs` (the prost message structs and the
`Service::call` implementation on `RouteGuideServer`).  The catalog
loader embeds `src/src/data.rs`.  The business handlers (GeoIndex,
RouteAggregator, ChatRoom) are not part of the repository sources —
only their trait declarations appear in `route_guide.rs` — so they are
modelled from the specification, as marked on each definition.
-/

namespace RouteGuide

/-- `Point` from `src/data/route_guide.rs`: latitude/longitude in E7
fixed-point degrees (i32 on the wire, embedded as `Int`). -/
structure Point where
  latitude : Int
  longitude : Int
deriving DecidableEq, Repr

/-- `Rectangle` from `src/data/route_guide.rs`: two optional corner points. -/
structure Rectangle where
  lo : Option Point
  hi : Option Point
deriving DecidableEq, Repr

/-- `Feature` from `src/data/route_guide.rs`: a name (possibly empty) and an
optional location. -/
structure Feature where
  name : String
  location : Option Point
deriving DecidableEq, Repr

/-- `RouteNote` from `src/data/route_guide.rs`. -/
structure RouteNote where
  location : Option Point
  message : String
deriving DecidableEq, Repr

/-- `RouteSummary` from `src/data/route_guide.rs` (all fields i32). -/
structure RouteSummary where
  point_count : Int
  feature_count : Int
  distance : Int
  elapsed_time : Int
deriving DecidableEq, Repr

/-! ## The method dispatcher (`Service` impl for `RouteGuideServer`) -/

/-- The four gRPC streaming shapes offered by `tonic::server::Grpc`; each
match arm of `call` invokes exactly one of `grpc.unary`,
`grpc.server_streaming`, `grpc.client_streaming`, `grpc.streaming`. -/
inductive Cardinality
  | unary
  | serverStreaming
  | clientStreaming
  | bidiStreaming
deriving DecidableEq, Repr

/-- The four `RouteGuide` trait methods a dispatch arm can bind. -/
inductive HandlerMethod
  | get_feature
  | list_features
  | record_route
  | route_chat
deriving DecidableEq, Repr

/-- An HTTP response as built by the fallback arm of `call`
(`http::Response::builder().status(..).header(..).body(..)`). -/
structure HttpResponse where
  status : Nat
  headers : List (String × String)
  body_empty : Bool
deriving DecidableEq, Repr

/-- Outcome of one `call` invocation: either the request was dispatched to a
handler under a streaming shape, or the fallback arm produced a raw HTTP
response directly. -/
inductive CallOutcome
  | dispatched (handler : HandlerMethod) (shape : Cardinality)
  | http (resp : HttpResponse)
deriving DecidableEq, Repr

/-- `tonic::codegen::Never`: the uninhabited error type of the `Service`
implementation (`type Error = Never`). -/
inductive Never
deriving DecidableEq

/-- `Poll` from the Rust futures API, as returned by `poll_ready`. -/
inductive Poll (α : Type)
  | ready (a : α)
  | pending
deriving DecidableEq

/-- `poll_ready` from the `Service` impl in `src/data/route_guide.rs`
(lines 134-136): unconditionally `Poll::Ready(Ok(()))`. -/
def poll_ready : Poll (Except Never Unit) := .ready (.ok ())

/-- `call` from the `Service` impl in `src/data/route_guide.rs`
(lines 137-273): match on `req.uri().path()`; each recognized path binds its
service shim to the matching `Grpc` streaming entry point and wraps the
result in `Ok`; the fallback arm answers `Ok` with an HTTP 200 response
carrying header `grpc-status: 12` and an empty body. -/
def call (path : String) : Except Never CallOutcome :=
  if path = "/route_guide.RouteGuide/GetFeature" then
    .ok (.dispatched .get_feature .unary)
  else if path = "/route_guide.RouteGuide/ListFeatures" then
    .ok (.dispatched .list_features .serverStreaming)
  else if path = "/route_guide.RouteGuide/RecordRoute" then
    .ok (.dispatched .record_route .clientStreaming)
  else if path = "/route_guide.RouteGuide/RouteChat" then
    .ok (.dispatched .route_chat .bidiStreaming)
  else
    .ok (.http { status := 200, headers := [("grpc-status", "12")], body_empty := true })

/-- The HTTP response the fallback arm of `call` builds. -/
def unimplementedResponse : HttpResponse :=
  { status := 200, headers := [("grpc-status", "12")], body_empty := true }

/-! ## Catalog loading (`src/src/data.rs`) -/

namespace DataLoad

/-- `Location` from `src/src/data.rs`: the deserialized JSON record shape. -/
structure Location where
  latitude : Int
  longitude : Int
deriving DecidableEq, Repr

/-- `Feature` from `src/src/data.rs` (the serde-side record, distinct from
the wire `Feature`). -/
structure SrcFeature where
  location : Location
  name : String
deriving DecidableEq, Repr

/-- The pure mapping stage of `load` from `src/src/data.rs` (lines 23-32):
already-decoded records are mapped into wire `Feature`s, the location always
wrapped in `Some`.  File opening and JSON decoding are external effects and
are represented by the already-decoded input list. -/
def load (decoded : List SrcFeature) : List Feature :=
  decoded.map (fun feature =>
    { name := feature.name
      location := some { longitude := feature.location.longitude
                         latitude := feature.location.latitude } })

end DataLoad

/-! ## GeoIndex (modelled from the spec) -/

namespace GeoIndex

/-- Modelled from the spec: the `get_feature` handler body is missing from
`src/` (only its trait declaration at `route_guide.rs` lines 73-76 is
present).  Per spec section 4.1: `lookup(point)` returns the first cataloged
feature whose location exactly equals the given point, or an empty-name
Feature if none matches. -/
def lookup (catalog : List Feature) (p : Point) : Feature :=
  match catalog.find? (fun f => f.location == some p) with
  | some f => f
  | none => { name := "", location := none }

/-- Per-axis bound check after normalization: the smaller of the two corner
coordinates is the lower bound, the larger the upper. -/
def inRange (a b v : Int) : Bool :=
  decide (min a b ≤ v) && decide (v ≤ max a b)

/-- A point is inside the rectangle spanned by corners `lo` and `hi` after
axis-wise normalization. -/
def inRectangle (lo hi p : Point) : Bool :=
  inRange lo.latitude hi.latitude p.latitude &&
    inRange lo.longitude hi.longitude p.longitude

/-- Modelled from the spec: the `list_features` handler body is missing from
`src/` (only its trait declaration at `route_guide.rs` lines 86-89 is
present).  Per spec section 4.1: `query(rectangle)` produces, in catalog
order, every feature whose location falls within the rectangle after
axis-wise normalization, excluding features with empty names. -/
def query (catalog : List Feature) (lo hi : Point) : List Feature :=
  catalog.filter (fun f =>
    (!(f.name == "")) &&
      match f.location with
      | some p => inRectangle lo hi p
      | none => false)

end GeoIndex

/-! ## RouteAggregator (modelled from the spec) -/

namespace Aggregator

/-- A transport-level error status (`tonic::Status`): the code and message
carried by a failed stream item. -/
structure GrpcStatus where
  code : Nat
  message : String
deriving DecidableEq, Repr

/-- The per-call accumulator of spec section 3 "Session state": previous
point, running counts and running distance. -/
structure AggState where
  previous : Option Point
  point_count : Nat
  feature_count : Nat
  distance : Nat
deriving DecidableEq, Repr

/-- Modelled from the spec: the `record_route` handler body is missing from
`src/` (only its trait declaration at `route_guide.rs` lines 92-95 is
present).  Spec section 4.2 gives the state machine
`Empty → Accumulating → Finalized`; a transport error discards the
accumulator. -/
inductive AggPhase
  | accumulating (s : AggState)
  | finalized (summary : RouteSummary)
  | failed (e : GrpcStatus)
deriving DecidableEq, Repr

/-- A fresh aggregator: accumulating, nothing seen yet. -/
def aggInit : AggPhase := .accumulating ⟨none, 0, 0, 0⟩

/-- Modelled from the spec (section 4.2): on each inbound point, increment
`point_count`; if `lookup` yields a named feature, increment
`feature_count`; if a previous point exists, add the distance between
previous and current point (the haversine computation is abstracted as the
integer-valued parameter `dist`); set previous to the current point. -/
def aggStep (dist : Point → Point → Nat) (catalog : List Feature)
    (s : AggState) (p : Point) : AggState :=
  { previous := some p
    point_count := s.point_count + 1
    feature_count :=
      s.feature_count + (if (GeoIndex.lookup catalog p).name = "" then 0 else 1)
    distance :=
      s.distance + (match s.previous with | some q => dist q p | none => 0) }

/-- Feed one point to the aggregator; only the accumulating phase consumes
points. -/
def aggFeed (dist : Point → Point → Nat) (catalog : List Feature) :
    AggPhase → Point → AggPhase
  | .accumulating s, p => .accumulating (aggStep dist catalog s p)
  | ph, _ => ph

/-- Feed a whole inbound sequence, in arrival order. -/
def aggFeedAll (dist : Point → Point → Nat) (catalog : List Feature)
    (ph : AggPhase) (ps : List Point) : AggPhase :=
  ps.foldl (aggFeed dist catalog) ph

/-- Modelled from the spec (section 4.2): normal end-of-stream transitions
`Accumulating` to `Finalized`, emitting one `RouteSummary` built from the
accumulator plus the wall-clock elapsed seconds (passed in, since real time
is external). -/
def aggFinish (elapsed : Int) : AggPhase → AggPhase
  | .accumulating s =>
      .finalized { point_count := (s.point_count : Int)
                   feature_count := (s.feature_count : Int)
                   distance := (s.distance : Int)
                   elapsed_time := elapsed }
  | ph => ph

/-- Modelled from the spec (section 4.2, Failure): a transport error on the
inbound stream discards the accumulator and carries the error. -/
def aggFail (e : GrpcStatus) : AggPhase → AggPhase
  | .accumulating _ => .failed e
  | ph => ph

/-- What the caller can observe of an aggregator: nothing while the stream
is still open, the summary after a normal finish, the unchanged transport
error after a failure. -/
def emitted : AggPhase → Option (Except GrpcStatus RouteSummary)
  | .accumulating _ => none
  | .finalized s => some (.ok s)
  | .failed e => some (.error e)

/-- The ordered sum of pairwise distances between consecutive points. -/
def pairDist (dist : Point → Point → Nat) : List Point → Nat
  | [] => 0
  | [_] => 0
  | p :: q :: rest => dist p q + pairDist dist (q :: rest)

/-- The distance accumulated while walking `ps` starting from an optional
previous point, mirroring the accumulator's use of `previous`. -/
def routeDist (dist : Point → Point → Nat) : Option Point → List Point → Nat
  | _, [] => 0
  | none, p :: rest => routeDist dist (some p) rest
  | some q, p :: rest => dist q p + routeDist dist (some p) rest

/-- The `previous` field after walking `ps` from an optional previous
point: the last point of `ps` if any, otherwise the starting value. -/
def lastPrev (prev : Option Point) : List Point → Option Point
  | [] => prev
  | p :: rest => lastPrev (some p) rest

end Aggregator

/-! ## ChatRoom (modelled from the spec) -/

namespace Chat

/-- Modelled from the spec: the `route_chat` handler body is missing from
`src/` (only its trait declaration at `route_guide.rs` lines 103-106 is
present).  Spec sections 4.3 and 9: the broadcast hub is an explicit set of
session handles, each with an outbound queue; a queued entry remembers which
session sent it. -/
structure ChatRoom where
  sessions : List (Nat × List (Nat × RouteNote))
deriving DecidableEq, Repr

/-- A session registers on stream start: appended with an empty outbound
queue. -/
def joinRoom (i : Nat) (r : ChatRoom) : ChatRoom :=
  ⟨r.sessions ++ [(i, [])]⟩

/-- A session deregisters on stream end: all its entries are removed. -/
def leaveRoom (i : Nat) (r : ChatRoom) : ChatRoom :=
  ⟨r.sessions.filter (fun sq => !(sq.1 == i))⟩

/-- Modelled from the spec (section 4.3): an inbound note from `sender` is
appended to every other currently-registered session's outbound queue; the
sender's own queue is left untouched; sessions not registered at this moment
are simply skipped (the map touches only present entries) and the operation
is total, so no error can surface to the sender. -/
def broadcast (sender : Nat) (m : RouteNote) (r : ChatRoom) : ChatRoom :=
  ⟨r.sessions.map (fun sq =>
    if sq.1 = sender then sq else (sq.1, sq.2 ++ [(sender, m)]))⟩

/-- The outbound queue of session `i`, when registered. -/
def queueOf (r : ChatRoom) (i : Nat) : Option (List (Nat × RouteNote)) :=
  (r.sessions.find? (fun sq => sq.1 == i)).map Prod.snd

/-- One observable event at the hub. -/
inductive ChatEvent
  | joinEv (i : Nat)
  | leaveEv (i : Nat)
  | sendEv (i : Nat) (m : RouteNote)
deriving DecidableEq, Repr

/-- Interpret one event on the room. -/
def chatStep (r : ChatRoom) : ChatEvent → ChatRoom
  | .joinEv i => joinRoom i r
  | .leaveEv i => leaveRoom i r
  | .sendEv i m => broadcast i m r

/-- Run a whole trace of events, in order. -/
def chatRun (r : ChatRoom) (evs : List ChatEvent) : ChatRoom :=
  evs.foldl chatStep r

/-- The notes sent by session `s` over a trace, in send order. -/
def sentBy (s : Nat) (evs : List ChatEvent) : List RouteNote :=
  evs.filterMap (fun e =>
    match e with
    | .sendEv i m => if i = s then some m else none
    | _ => none)

/-- The notes from sender `s` sitting in session `recv`'s outbound queue, in
delivery order (empty when `recv` is not registered). -/
def receivedFrom (r : ChatRoom) (recv s : Nat) : List RouteNote :=
  ((queueOf r recv).getD []).filterMap (fun em =>
    if em.1 = s then some em.2 else none)

end Chat

/-! ## Theorems -/

/-- Claim C1: for every inbound call whose method identifier is not one of
the four recognized RouteGuide method paths, the dispatcher's `call`
operation returns a well-defined unimplemented outcome — a clean `Ok` HTTP
200 response carrying header grpc-status 12 and an empty body — rather than
crashing or dropping the connection; `call` is a pure function of the path,
so this outcome cannot affect any other call. -/
theorem C1_unknown_method_unimplemented (path : String)
    (h1 : path ≠ "/route_guide.RouteGuide/GetFeature")
    (h2 : path ≠ "/route_guide.RouteGuide/ListFeatures")
    (h3 : path ≠ "/route_guide.RouteGuide/RecordRoute")
    (h4 : path ≠ "/route_guide.RouteGuide/RouteChat") :
    call path = .ok (.http unimplementedResponse) ∧
      unimplementedResponse.status = 200 ∧
      unimplementedResponse.headers = [("grpc-status", "12")] ∧
      unimplementedResponse.body_empty = true := by
  refine ⟨?_, rfl, rfl, rfl⟩
  simp [call, h1, h2, h3, h4, unimplementedResponse]

/-- Witness for C1 at the concrete unknown path
`/route_guide.RouteGuide/Unknown`. -/
theorem C1_witness :
    call "/route_guide.RouteGuide/Unknown" = .ok (.http unimplementedResponse) ∧
      unimplementedResponse.status = 200 ∧
      unimplementedResponse.headers = [("grpc-status", "12")] ∧
      unimplementedResponse.body_empty = true :=
  C1_unknown_method_unimplemented "/route_guide.RouteGuide/Unknown"
    (by decide) (by decide) (by decide) (by decide)

/-- Claim C2: the dispatcher routes each recognized method identifier to
exactly one handler with the matching streaming cardinality: GetFeature to
the unary `get_feature`, ListFeatures to the server-streaming
`list_features`, RecordRoute to the client-streaming `record_route`, and
RouteChat to the bidirectional-streaming `route_chat`.  `call` being a
function, each path yields exactly one dispatch. -/
theorem C2_dispatch_shapes :
    call "/route_guide.RouteGuide/GetFeature" =
      .ok (.dispatched .get_feature .unary) ∧
    call "/route_guide.RouteGuide/ListFeatures" =
      .ok (.dispatched .list_features .serverStreaming) ∧
    call "/route_guide.RouteGuide/RecordRoute" =
      .ok (.dispatched .record_route .clientStreaming) ∧
    call "/route_guide.RouteGuide/RouteChat" =
      .ok (.dispatched .route_chat .bidiStreaming) := by
  refine ⟨?_, ?_, ?_, ?_⟩ <;> rfl

/-- Claim C9: the `Service` implementation cannot fail: its error type
`Never` is uninhabited, `poll_ready` always answers `Ready(Ok(()))`, `call`
always yields an `Ok` response for every path, and for unrecognized paths
that response is HTTP 200 with header grpc-status 12 and an empty body. -/
theorem C9_service_infallible :
    (∀ e : Never, False) ∧
    poll_ready = .ready (.ok ()) ∧
    (∀ path : String, ∃ outcome, call path = .ok outcome) ∧
    (∀ path : String,
      path ∉ ["/route_guide.RouteGuide/GetFeature",
              "/route_guide.RouteGuide/ListFeatures",
              "/route_guide.RouteGuide/RecordRoute",
              "/route_guide.RouteGuide/RouteChat"] →
      call path =
        .ok (.http { status := 200, headers := [("grpc-status", "12")],
                     body_empty := true })) := by
  refine ⟨?_, rfl, ?_, ?_⟩
  · intro e
    cases e
  · intro path
    cases h : call path with
    | ok outcome => exact ⟨outcome, rfl⟩
    | error e => exact nomatch e
  · intro path h
    simp only [List.mem_cons, List.not_mem_nil, or_false] at h
    push_neg at h
    obtain ⟨h1, h2, h3, h4⟩ := h
    simp [call, h1, h2, h3, h4]

/-- Witness for C9 at the concrete unrecognized path `/foo`. -/
theorem C9_witness :
    call "/foo" =
      .ok (.http { status := 200, headers := [("grpc-status", "12")],
                   body_empty := true }) :=
  C9_service_infallible.2.2.2 "/foo" (by decide)

/-- Claim C10: for every successfully decoded catalog, `load` returns a
vector of Features of the same length and order, each output `Feature`'s
name equal to the source record's name and its location always
`Some(Point)` with latitude and longitude copied unchanged. -/
theorem C10_load_preserves_records (decoded : List DataLoad.SrcFeature) :
    (DataLoad.load decoded).length = decoded.length ∧
    ∀ (i : Nat) (f : DataLoad.SrcFeature), decoded[i]? = some f →
      (DataLoad.load decoded)[i]? =
        some { name := f.name
               location := some { latitude := f.location.latitude
                                  longitude := f.location.longitude } } := by
  constructor
  · simp [DataLoad.load]
  · intro i f h
    simp [DataLoad.load, h]

/-- Witness for C10 on the one-record catalog with name A at (1, 2). -/
theorem C10_witness :
    (DataLoad.load [⟨⟨1, 2⟩, "A"⟩])[0]? = some ⟨"A", some ⟨1, 2⟩⟩ :=
  (C10_load_preserves_records [⟨⟨1, 2⟩, "A"⟩]).2 0 ⟨⟨1, 2⟩, "A"⟩ rfl

/-- A catalog with no feature at `p` makes `lookup` answer the empty-name
feature. -/
theorem lookup_eq_empty_of_no_match (catalog : List Feature) (p : Point)
    (h : ∀ f ∈ catalog, f.location ≠ some p) :
    GeoIndex.lookup catalog p = { name := "", location := none } := by
  have hnone : catalog.find? (fun f => f.location == some p) = none := by
    rw [List.find?_eq_none]
    intro f hf
    simpa using h f hf
  unfold GeoIndex.lookup
  rw [hnone]

/-- When some feature sits at `p`, `lookup` answers the first such feature
in catalog order. -/
theorem lookup_first_match (catalog : List Feature) (p : Point)
    (h : ∃ f ∈ catalog, f.location = some p) :
    ∃ i : Nat, catalog[i]? = some (GeoIndex.lookup catalog p) ∧
      (GeoIndex.lookup catalog p).location = some p ∧
      ∀ j < i, ∀ g, catalog[j]? = some g → g.location ≠ some p := by
  induction catalog with
  | nil => simp at h
  | cons a l ih =>
    by_cases ha : a.location = some p
    · have hla : GeoIndex.lookup (a :: l) p = a := by
        unfold GeoIndex.lookup
        rw [List.find?_cons_of_pos _ (by simpa using ha)]
      refine ⟨0, by rw [hla]; simp, by rw [hla]; exact ha, ?_⟩
      intro j hj
      omega
    · have hl : GeoIndex.lookup (a :: l) p = GeoIndex.lookup l p := by
        unfold GeoIndex.lookup
        rw [List.find?_cons_of_neg _ (by simpa using ha)]
      obtain ⟨f, hf, hfp⟩ := h
      rcases List.mem_cons.mp hf with rfl | hfl
      · exact absurd hfp ha
      obtain ⟨i, h1, h2, h3⟩ := ih ⟨f, hfl, hfp⟩
      refine ⟨i + 1, by simpa [hl] using h1, hl ▸ h2, ?_⟩
      intro j hj g hg
      cases j with
      | zero =>
        have : a = g := by simpa using hg
        exact this ▸ ha
      | succ k =>
        exact h3 k (by omega) g (by simpa using hg)

/-- Claim C5: `lookup(p)` returns the first catalogued feature (in catalog
order) whose location exactly equals `p`, and when no catalogued feature
matches it returns an empty-name Feature; being a total function it never
fails. -/
theorem C5_lookup_contract (catalog : List Feature) (p : Point) :
    ((∀ f ∈ catalog, f.location ≠ some p) →
      GeoIndex.lookup catalog p = { name := "", location := none }) ∧
    ((∃ f ∈ catalog, f.location = some p) →
      ∃ i : Nat, catalog[i]? = some (GeoIndex.lookup catalog p) ∧
        (GeoIndex.lookup catalog p).location = some p ∧
        ∀ j < i, ∀ g, catalog[j]? = some g → g.location ≠ some p) :=
  ⟨lookup_eq_empty_of_no_match catalog p, lookup_first_match catalog p⟩

/-- Witness for C5: the point (1, 2) is not in the one-feature catalog at
(3, 4), so lookup answers the empty-name feature. -/
theorem C5_witness :
    GeoIndex.lookup [Feature.mk "A" (some ⟨3, 4⟩)] ⟨1, 2⟩ =
      { name := "", location := none } :=
  (C5_lookup_contract [Feature.mk "A" (some ⟨3, 4⟩)] ⟨1, 2⟩).1 (by decide)

/-- Membership in a query result: named features whose point lies within
the normalized bounds. -/
theorem mem_query_iff (catalog : List Feature) (lo hi : Point) (f : Feature) :
    f ∈ GeoIndex.query catalog lo hi ↔
      f ∈ catalog ∧ f.name ≠ "" ∧ ∃ p, f.location = some p ∧
        min lo.latitude hi.latitude ≤ p.latitude ∧
        p.latitude ≤ max lo.latitude hi.latitude ∧
        min lo.longitude hi.longitude ≤ p.longitude ∧
        p.longitude ≤ max lo.longitude hi.longitude := by
  unfold GeoIndex.query
  rw [List.mem_filter]
  cases hloc : f.location with
  | none => simp [hloc]
  | some q =>
    simp [hloc, GeoIndex.inRectangle, GeoIndex.inRange, and_assoc]

/-- Swapping both corners leaves the rectangle membership test unchanged. -/
theorem inRectangle_swap (lo hi : Point) :
    GeoIndex.inRectangle hi lo = GeoIndex.inRectangle lo hi := by
  funext p
  simp [GeoIndex.inRectangle, GeoIndex.inRange, min_comm, max_comm]

/-- Swapping the corners on one axis only leaves the membership test
unchanged. -/
theorem inRectangle_swap_axis (lo hi : Point) :
    GeoIndex.inRectangle ⟨lo.latitude, hi.longitude⟩ ⟨hi.latitude, lo.longitude⟩ =
      GeoIndex.inRectangle lo hi := by
  funext p
  simp [GeoIndex.inRectangle, GeoIndex.inRange, min_comm, max_comm]

/-- Claim C3: `query` produces, in catalog order (a sublist of the
catalog), exactly those features with a non-empty name whose point lies
within the axis-normalized rectangle; corners supplied swapped on both axes
or on a single axis give the same result; and on the two-feature scenario
catalog the query returns exactly the named feature A. -/
theorem C3_query_characterization (catalog : List Feature) (lo hi : Point) :
    (GeoIndex.query catalog lo hi).Sublist catalog ∧
    (∀ f, f ∈ GeoIndex.query catalog lo hi ↔
      f ∈ catalog ∧ f.name ≠ "" ∧ ∃ p, f.location = some p ∧
        min lo.latitude hi.latitude ≤ p.latitude ∧
        p.latitude ≤ max lo.latitude hi.latitude ∧
        min lo.longitude hi.longitude ≤ p.longitude ∧
        p.longitude ≤ max lo.longitude hi.longitude) ∧
    GeoIndex.query catalog hi lo = GeoIndex.query catalog lo hi ∧
    GeoIndex.query catalog ⟨lo.latitude, hi.longitude⟩ ⟨hi.latitude, lo.longitude⟩ =
      GeoIndex.query catalog lo hi ∧
    GeoIndex.query
      [⟨"A", some ⟨400000000, -750000000⟩⟩, ⟨"", some ⟨410000000, -740000000⟩⟩]
      ⟨390000000, -760000000⟩ ⟨420000000, -730000000⟩ =
      [⟨"A", some ⟨400000000, -750000000⟩⟩] := by
  refine ⟨List.filter_sublist _, mem_query_iff catalog lo hi, ?_, ?_, ?_⟩
  · unfold GeoIndex.query
    simp only [inRectangle_swap]
  · unfold GeoIndex.query
    simp only [inRectangle_swap_axis]
  · rfl

/-- Feeding a point sequence to an accumulating aggregator keeps it
accumulating and adds the sequence's length, named-feature count and walked
distance to the running state. -/
theorem aggFeedAll_accumulating (dist : Point → Point → Nat)
    (catalog : List Feature) (ps : List Point) (s : Aggregator.AggState) :
    Aggregator.aggFeedAll dist catalog (.accumulating s) ps =
      .accumulating
        { previous := Aggregator.lastPrev s.previous ps
          point_count := s.point_count + ps.length
          feature_count := s.feature_count +
            ps.countP (fun p => !((GeoIndex.lookup catalog p).name == ""))
          distance := s.distance + Aggregator.routeDist dist s.previous ps } := by
  induction ps generalizing s with
  | nil =>
    simp [Aggregator.aggFeedAll, Aggregator.lastPrev, Aggregator.routeDist]
  | cons p rest ih =>
    have step :
        Aggregator.aggFeedAll dist catalog (.accumulating s) (p :: rest) =
          Aggregator.aggFeedAll dist catalog
            (.accumulating (Aggregator.aggStep dist catalog s p)) rest := rfl
    rw [step, ih]
    cases hprev : s.previous with
    | none =>
      simp only [Aggregator.aggStep, hprev, Aggregator.lastPrev,
        Aggregator.routeDist, List.countP_cons, List.length_cons,
        Aggregator.AggPhase.accumulating.injEq, Aggregator.AggState.mk.injEq]
      refine ⟨trivial, by omega, ?_, by omega⟩
      by_cases hname : (GeoIndex.lookup catalog p).name = "" <;>
        simp [hname] <;> omega
    | some q =>
      simp only [Aggregator.aggStep, hprev, Aggregator.lastPrev,
        Aggregator.routeDist, List.countP_cons, List.length_cons,
        Aggregator.AggPhase.accumulating.injEq, Aggregator.AggState.mk.injEq]
      refine ⟨trivial, by omega, ?_, by omega⟩
      by_cases hname : (GeoIndex.lookup catalog p).name = "" <;>
        simp [hname] <;> omega

/-- Walking from an explicit first point sums the consecutive pairwise
distances of the path headed by that point. -/
theorem routeDist_some (dist : Point → Point → Nat) (ps : List Point)
    (p : Point) :
    Aggregator.routeDist dist (some p) ps = Aggregator.pairDist dist (p :: ps) := by
  induction ps generalizing p with
  | nil => rfl
  | cons q rest ih =>
    simp [Aggregator.routeDist, Aggregator.pairDist, ih]

/-- Walking from no previous point sums the consecutive pairwise
distances. -/
theorem routeDist_none (dist : Point → Point → Nat) (ps : List Point) :
    Aggregator.routeDist dist none ps = Aggregator.pairDist dist ps := by
  cases ps with
  | nil => rfl
  | cons p rest => simpa [Aggregator.routeDist] using routeDist_some dist rest p

/-- Claim C4: a fresh RouteAggregator fed N points and finalized by a
normal end-of-stream emits a RouteSummary whose point_count is N, whose
feature_count is the number of points whose lookup yields a named feature,
and whose distance is the ordered sum of the pairwise distances between
consecutive points (the haversine computation abstracted as `dist`). -/
theorem C4_summary_totals (dist : Point → Point → Nat)
    (catalog : List Feature) (ps : List Point) (elapsed : Int) :
    Aggregator.emitted
        (Aggregator.aggFinish elapsed
          (Aggregator.aggFeedAll dist catalog Aggregator.aggInit ps)) =
      some (.ok
        { point_count := (ps.length : Int)
          feature_count :=
            ((ps.countP (fun p => !((GeoIndex.lookup catalog p).name == ""))) : Int)
          distance := (Aggregator.pairDist dist ps : Int)
          elapsed_time := elapsed }) := by
  rw [Aggregator.aggInit, aggFeedAll_accumulating]
  simp [Aggregator.aggFinish, Aggregator.emitted, routeDist_none]

/-- Claim C6: a RouteAggregator emits a RouteSummary only on a normal
end-of-stream: while the inbound stream is still open (points fed, no
finalization) nothing is exposed, and when the stream terminates with a
transport error no summary is emitted and the error is carried to the
caller unchanged. -/
theorem C6_no_summary_before_finish (dist : Point → Point → Nat)
    (catalog : List Feature) (ps : List Point) (e : Aggregator.GrpcStatus) :
    Aggregator.emitted
        (Aggregator.aggFeedAll dist catalog Aggregator.aggInit ps) = none ∧
    Aggregator.emitted
        (Aggregator.aggFail e
          (Aggregator.aggFeedAll dist catalog Aggregator.aggInit ps)) =
      some (.error e) := by
  rw [Aggregator.aggInit, aggFeedAll_accumulating]
  exact ⟨rfl, rfl⟩

/-- A find? by one predicate passes through a filter whose predicate is
implied by it. -/
theorem find?_filter_of_imp {α : Type} (l : List α) (p q : α → Bool)
    (h : ∀ x, q x = true → p x = true) :
    (l.filter p).find? q = l.find? q := by
  induction l with
  | nil => rfl
  | cons a l ih =>
    by_cases hqa : q a = true
    · rw [List.filter_cons, if_pos (h a hqa), List.find?_cons_of_pos _ hqa,
        List.find?_cons_of_pos _ hqa]
    · by_cases hpa : p a = true
      · rw [List.filter_cons, if_pos hpa, List.find?_cons_of_neg _ hqa,
          List.find?_cons_of_neg _ hqa, ih]
      · rw [List.filter_cons, if_neg hpa, ih, List.find?_cons_of_neg _ hqa]

/-- A broadcast rewrites every registered queue: the sender's stays as it
was, every other registered queue gets the note appended; absent sessions
stay absent. -/
theorem queueOf_broadcast (s : Nat) (m : RouteNote) (r : Chat.ChatRoom)
    (i : Nat) :
    Chat.queueOf (Chat.broadcast s m r) i =
      (Chat.queueOf r i).map (fun q => if i = s then q else q ++ [(s, m)]) := by
  simp only [Chat.queueOf, Chat.broadcast, List.find?_map]
  have hpred : ((fun sq : Nat × List (Nat × RouteNote) => sq.1 == i) ∘
      (fun sq => if sq.1 = s then sq else (sq.1, sq.2 ++ [(s, m)]))) =
      (fun sq : Nat × List (Nat × RouteNote) => sq.1 == i) := by
    funext x
    by_cases h : x.1 = s <;> simp [h]
  rw [hpred]
  cases hf : r.sessions.find? (fun sq => sq.1 == i) with
  | none => rfl
  | some a =>
    have ha : a.1 = i := by simpa using List.find?_some hf
    subst ha
    by_cases hs : a.1 = s <;> simp [hs]

/-- A deregistered session is gone from the membership set. -/
theorem queueOf_leaveRoom_self (b : Nat) (r : Chat.ChatRoom) :
    Chat.queueOf (Chat.leaveRoom b r) b = none := by
  simp only [Chat.queueOf, Chat.leaveRoom, Option.map_eq_none']
  rw [List.find?_eq_none]
  intro x hx
  have hb := (List.mem_filter.mp hx).2
  simp at hb ⊢
  exact hb

/-- A session other than the leaver keeps its queue across a leave. -/
theorem queueOf_leaveRoom_other (b : Nat) (r : Chat.ChatRoom) (i : Nat)
    (h : i ≠ b) :
    Chat.queueOf (Chat.leaveRoom b r) i = Chat.queueOf r i := by
  simp only [Chat.queueOf, Chat.leaveRoom]
  rw [find?_filter_of_imp]
  intro x hx
  have hxi : x.1 = i := by simpa using hx
  simp [hxi, h]

/-- A join does not change what any session has received: the newcomer
starts with an empty queue and existing queues are untouched. -/
theorem receivedFrom_joinRoom (i : Nat) (r : Chat.ChatRoom) (recv s : Nat) :
    Chat.receivedFrom (Chat.joinRoom i r) recv s =
      Chat.receivedFrom r recv s := by
  simp only [Chat.receivedFrom, Chat.queueOf, Chat.joinRoom, List.find?_append]
  cases hf : r.sessions.find? (fun sq => sq.1 == recv) with
  | some a => rfl
  | none =>
    by_cases hij : i = recv <;> simp [hij]

/-- A leave can only shrink (to empty) what a session has received. -/
theorem receivedFrom_leaveRoom_sublist (b : Nat) (r : Chat.ChatRoom)
    (recv s : Nat) :
    (Chat.receivedFrom (Chat.leaveRoom b r) recv s).Sublist
      (Chat.receivedFrom r recv s) := by
  by_cases h : recv = b
  · subst h
    unfold Chat.receivedFrom
    rw [queueOf_leaveRoom_self]
    simp
  · unfold Chat.receivedFrom
    rw [queueOf_leaveRoom_other b r recv h]

/-- One broadcast extends a receiver's notes from sender `s` by at most the
broadcast note, and only when the broadcaster is `s`. -/
theorem receivedFrom_broadcast_sublist (i : Nat) (m : RouteNote)
    (r : Chat.ChatRoom) (recv s : Nat) :
    (Chat.receivedFrom (Chat.broadcast i m r) recv s).Sublist
      (Chat.receivedFrom r recv s ++ (if i = s then [m] else [])) := by
  unfold Chat.receivedFrom
  rw [queueOf_broadcast]
  cases hf : Chat.queueOf r recv with
  | none => simp
  | some q =>
    by_cases hri : recv = i
    · simp only [hf, Option.map_some, if_pos hri, Option.getD_some]
      exact List.sublist_append_left _ _
    · simp only [hf, Option.map_some, if_neg hri, Option.getD_some,
        List.filterMap_append]
      by_cases his : i = s <;> simp [his]

/-- Over any event trace, the notes a receiver holds from sender `s` are a
(in-order) sublist of everything `s` sent, beyond what the receiver already
held. -/
theorem receivedFrom_chatRun_sublist (s : Nat) (evs : List Chat.ChatEvent)
    (r : Chat.ChatRoom) (recv : Nat) :
    (Chat.receivedFrom (Chat.chatRun r evs) recv s).Sublist
      (Chat.receivedFrom r recv s ++ Chat.sentBy s evs) := by
  induction evs generalizing r with
  | nil => simp [Chat.chatRun, Chat.sentBy]
  | cons e rest ih =>
    have hrun : Chat.chatRun r (e :: rest) =
        Chat.chatRun (Chat.chatStep r e) rest := rfl
    rw [hrun]
    cases e with
    | joinEv i =>
      have h1 := ih (Chat.joinRoom i r)
      rw [receivedFrom_joinRoom] at h1
      simpa [Chat.chatStep, Chat.sentBy] using h1
    | leaveEv i =>
      have h1 := ih (Chat.leaveRoom i r)
      have h2 := (receivedFrom_leaveRoom_sublist i r recv s).append_right
        (Chat.sentBy s rest)
      have h3 := h1.trans h2
      simpa [Chat.chatStep, Chat.sentBy] using h3
    | sendEv i m =>
      have h1 := ih (Chat.broadcast i m r)
      have h2 := (receivedFrom_broadcast_sublist i m r recv s).append_right
        (Chat.sentBy s rest)
      have h3 := h1.trans h2
      rw [List.append_assoc] at h3
      have hd : (if i = s then [m] else []) ++ Chat.sentBy s rest =
          Chat.sentBy s (.sendEv i m :: rest) := by
        by_cases his : i = s <;> simp [Chat.sentBy, his]
      rw [hd] at h3
      simpa [Chat.chatStep] using h3

/-- Claim C7: when session S broadcasts note M, every session registered at
that moment other than S gets M appended to its queue, S's own queue is
unchanged (S never receives its own note), and a session that deregistered
before the broadcast is simply skipped — it has no queue before or after,
and the broadcast is a total operation, so no error surfaces to the
sender. -/
theorem C7_broadcast_fanout (r : Chat.ChatRoom) (s : Nat) (m : RouteNote) :
    (∀ i q, Chat.queueOf r i = some q →
      Chat.queueOf (Chat.broadcast s m r) i =
        some (if i = s then q else q ++ [(s, m)])) ∧
    (∀ b, Chat.queueOf (Chat.broadcast s m (Chat.leaveRoom b r)) b = none) := by
  constructor
  · intro i q h
    rw [queueOf_broadcast, h]
    rfl
  · intro b
    rw [queueOf_broadcast, queueOf_leaveRoom_self]
    rfl

/-- Witness for C7: in the room with sessions 1 and 2, session 1 sends a
note; session 2's queue receives it appended. -/
theorem C7_witness :
    Chat.queueOf
        (Chat.broadcast 1 ⟨none, "hi"⟩ ⟨[(1, []), (2, [])]⟩) 2 =
      some (if 2 = 1 then [] else [] ++ [(1, (⟨none, "hi"⟩ : RouteNote))]) :=
  (C7_broadcast_fanout ⟨[(1, []), (2, [])]⟩ 1 ⟨none, "hi"⟩).1 2 [] rfl

/-- Claim C8: starting from an empty room, for every trace of joins,
leaves and sends and every pair of sessions, the notes from sender `s`
found in `recv`'s queue appear exactly in the order `s` sent them — they
form an in-order sublist of `s`'s send sequence (FIFO per sender per
receiver), while notes of different senders may interleave freely. -/
theorem C8_fifo_per_sender (evs : List Chat.ChatEvent) (recv s : Nat) :
    (Chat.receivedFrom (Chat.chatRun ⟨[]⟩ evs) recv s).Sublist
      (Chat.sentBy s evs) := by
  have h := receivedFrom_chatRun_sublist s evs ⟨[]⟩ recv
  simpa [Chat.receivedFrom, Chat.queueOf] using h

end RouteGuide
